import Mathlib

/-!
Verification development for the RTOS HAL configuration generator
(`tools/config_generator.py`).

The Python module is shallowly embedded:

* the dataclasses `ClockConfig` … `PlatformConfig` become Lean structures
  (Python ints are `Int`, Python `bool` is `Bool`, Python `str` is `String`);
* the enum `PlatformType` becomes a five-constructor inductive with its
  declared string `value`s;
* the registry `self.platforms` (a Python dict keyed by `PlatformType`,
  insertion-ordered) becomes an association list `Registry`;
* every text artifact is modelled as its list of lines, reproducing the
  template literals of the source byte for byte (a Python `'''…'''` segment
  ending in a newline contributes exactly its lines);
* Python run-time values that flow through the JSON codec are modelled by
  `PyValue` (`dataclasses.asdict` leaves enum members untouched, so the
  dictionary produced for a `PlatformConfig` still holds a `PlatformType`);
* `json.dump` succeeds exactly on values made of dicts / lists / strings /
  ints / bools / None, which `json_serializable` decides; an enum member is
  not serializable and makes `json.dump` raise `TypeError`;
* `PlatformConfig(**config_dict)` accepts exactly the dictionaries whose key
  set is precisely the eight field names and stores the raw JSON values in
  the fields without any conversion; `DecodedConfig` is the Lean type of the
  resulting object (its sections stay plain JSON values, not dataclasses).
-/

namespace RTOSConfigGen

/-- `PlatformType(Enum)` from the source: the five declared platform
identifiers. -/
inductive PlatformType where
  | STM32F1
  | STM32F4
  | STM32F7
  | RISC_V
  | X86_64
deriving DecidableEq, BEq, Repr

/-- The declared string value of each enum member (`PlatformType.value`). -/
def PlatformType.value : PlatformType → String
  | .STM32F1 => "stm32f1"
  | .STM32F4 => "stm32f4"
  | .STM32F7 => "stm32f7"
  | .RISC_V => "riscv"
  | .X86_64 => "x86_64"

/-- Dataclass `ClockConfig`. -/
structure ClockConfig where
  system_clock_freq : Int
  cpu_clock_freq : Int
  apb1_clock_freq : Int
  apb2_clock_freq : Int
  timer_clock_freq : Int
  timer_resolution_ns : Int
deriving DecidableEq, Repr

/-- Dataclass `MemoryConfig`. -/
structure MemoryConfig where
  flash_size_kb : Int
  ram_size_kb : Int
  ccm_size_kb : Int
  heap_size_kb : Int
  stack_size_kb : Int
deriving DecidableEq, Repr

/-- Dataclass `PeripheralConfig`. -/
structure PeripheralConfig where
  gpio_port_count : Int
  uart_count : Int
  spi_count : Int
  i2c_count : Int
  adc_count : Int
  dac_count : Int
  timer_count : Int
  dma_controller_count : Int
  dma_stream_count : Int
deriving DecidableEq, Repr

/-- Dataclass `FeatureConfig`. -/
structure FeatureConfig where
  has_fpu : Bool
  has_dsp : Bool
  has_mpu : Bool
  has_cache : Bool
  has_dma : Bool
  has_crypto : Bool
  has_ethernet : Bool
  has_usb : Bool
deriving DecidableEq, Repr

/-- Dataclass `ModuleConfig`: the fourteen module-enable flags. -/
structure ModuleConfig where
  power_management_enabled : Bool
  memory_monitor_enabled : Bool
  watchdog_enabled : Bool
  gpio_abstraction_enabled : Bool
  uart_abstraction_enabled : Bool
  spi_abstraction_enabled : Bool
  i2c_abstraction_enabled : Bool
  adc_abstraction_enabled : Bool
  dac_abstraction_enabled : Bool
  dma_abstraction_enabled : Bool
  security_enabled : Bool
  network_enabled : Bool
  ota_enabled : Bool
  debug_tools_enabled : Bool
deriving DecidableEq, Repr

/-- Dataclass `DebugConfig`. -/
structure DebugConfig where
  debug_enabled : Bool
  error_check_enabled : Bool
  performance_profiling_enabled : Bool
  system_tracing_enabled : Bool
  memory_leak_detection_enabled : Bool
deriving DecidableEq, Repr

/-- Dataclass `PlatformConfig`: the aggregate platform configuration. -/
structure PlatformConfig where
  platform_type : PlatformType
  platform_name : String
  clock : ClockConfig
  memory : MemoryConfig
  peripheral : PeripheralConfig
  feature : FeatureConfig
  module : ModuleConfig
  debug : DebugConfig
deriving DecidableEq, Repr

/-- The STM32F407 preset built in `_init_default_platforms`. -/
def stm32f4Config : PlatformConfig where
  platform_type := .STM32F4
  platform_name := "STM32F407VGT6"
  clock := {
    system_clock_freq := 168000000
    cpu_clock_freq := 168000000
    apb1_clock_freq := 84000000
    apb2_clock_freq := 168000000
    timer_clock_freq := 84000000
    timer_resolution_ns := 11 }
  memory := {
    flash_size_kb := 1024
    ram_size_kb := 128
    ccm_size_kb := 64
    heap_size_kb := 64
    stack_size_kb := 16 }
  peripheral := {
    gpio_port_count := 9
    uart_count := 6
    spi_count := 3
    i2c_count := 3
    adc_count := 3
    dac_count := 2
    timer_count := 14
    dma_controller_count := 2
    dma_stream_count := 8 }
  feature := {
    has_fpu := true
    has_dsp := true
    has_mpu := true
    has_cache := false
    has_dma := true
    has_crypto := false
    has_ethernet := true
    has_usb := true }
  module := {
    power_management_enabled := true
    memory_monitor_enabled := true
    watchdog_enabled := true
    gpio_abstraction_enabled := true
    uart_abstraction_enabled := true
    spi_abstraction_enabled := true
    i2c_abstraction_enabled := true
    adc_abstraction_enabled := true
    dac_abstraction_enabled := true
    dma_abstraction_enabled := true
    security_enabled := false
    network_enabled := true
    ota_enabled := true
    debug_tools_enabled := true }
  debug := {
    debug_enabled := true
    error_check_enabled := true
    performance_profiling_enabled := true
    system_tracing_enabled := true
    memory_leak_detection_enabled := true }

/-- The STM32F103 preset built in `_init_default_platforms`. -/
def stm32f1Config : PlatformConfig where
  platform_type := .STM32F1
  platform_name := "STM32F103VET6"
  clock := {
    system_clock_freq := 72000000
    cpu_clock_freq := 72000000
    apb1_clock_freq := 36000000
    apb2_clock_freq := 72000000
    timer_clock_freq := 72000000
    timer_resolution_ns := 13 }
  memory := {
    flash_size_kb := 512
    ram_size_kb := 64
    ccm_size_kb := 0
    heap_size_kb := 32
    stack_size_kb := 8 }
  peripheral := {
    gpio_port_count := 7
    uart_count := 5
    spi_count := 3
    i2c_count := 2
    adc_count := 2
    dac_count := 0
    timer_count := 8
    dma_controller_count := 2
    dma_stream_count := 7 }
  feature := {
    has_fpu := false
    has_dsp := false
    has_mpu := false
    has_cache := false
    has_dma := true
    has_crypto := false
    has_ethernet := false
    has_usb := true }
  module := {
    power_management_enabled := true
    memory_monitor_enabled := true
    watchdog_enabled := true
    gpio_abstraction_enabled := true
    uart_abstraction_enabled := true
    spi_abstraction_enabled := true
    i2c_abstraction_enabled := true
    adc_abstraction_enabled := true
    dac_abstraction_enabled := false
    dma_abstraction_enabled := true
    security_enabled := false
    network_enabled := false
    ota_enabled := false
    debug_tools_enabled := true }
  debug := {
    debug_enabled := true
    error_check_enabled := true
    performance_profiling_enabled := false
    system_tracing_enabled := true
    memory_leak_detection_enabled := true }

/-- The STM32F767 preset built in `_init_default_platforms`. -/
def stm32f7Config : PlatformConfig where
  platform_type := .STM32F7
  platform_name := "STM32F767VIT6"
  clock := {
    system_clock_freq := 216000000
    cpu_clock_freq := 216000000
    apb1_clock_freq := 54000000
    apb2_clock_freq := 108000000
    timer_clock_freq := 108000000
    timer_resolution_ns := 9 }
  memory := {
    flash_size_kb := 2048
    ram_size_kb := 512
    ccm_size_kb := 0
    heap_size_kb := 256
    stack_size_kb := 32 }
  peripheral := {
    gpio_port_count := 11
    uart_count := 8
    spi_count := 6
    i2c_count := 4
    adc_count := 3
    dac_count := 2
    timer_count := 17
    dma_controller_count := 2
    dma_stream_count := 8 }
  feature := {
    has_fpu := true
    has_dsp := true
    has_mpu := true
    has_cache := true
    has_dma := true
    has_crypto := true
    has_ethernet := true
    has_usb := true }
  module := {
    power_management_enabled := true
    memory_monitor_enabled := true
    watchdog_enabled := true
    gpio_abstraction_enabled := true
    uart_abstraction_enabled := true
    spi_abstraction_enabled := true
    i2c_abstraction_enabled := true
    adc_abstraction_enabled := true
    dac_abstraction_enabled := true
    dma_abstraction_enabled := true
    security_enabled := true
    network_enabled := true
    ota_enabled := true
    debug_tools_enabled := true }
  debug := {
    debug_enabled := true
    error_check_enabled := true
    performance_profiling_enabled := true
    system_tracing_enabled := true
    memory_leak_detection_enabled := true }

/-- A Python run-time value as it flows through the JSON codec.  `pyDict`
models a Python `dict` with string keys (the dictionaries produced by
`json.load` and `dataclasses.asdict` have pairwise distinct keys).
`pyEnum` models a `PlatformType` enum member, which `dataclasses.asdict`
leaves as-is inside the produced dictionary. -/
inductive PyValue where
  | pyInt (n : Int)
  | pyStr (s : String)
  | pyBool (b : Bool)
  | pyNull
  | pyList (xs : List PyValue)
  | pyDict (fs : List (String × PyValue))
  | pyEnum (p : PlatformType)

/-- `dataclasses.asdict` on a `ClockConfig`, in declared field order. -/
def asdictClock (c : ClockConfig) : PyValue :=
  .pyDict [
    ("system_clock_freq", .pyInt c.system_clock_freq),
    ("cpu_clock_freq", .pyInt c.cpu_clock_freq),
    ("apb1_clock_freq", .pyInt c.apb1_clock_freq),
    ("apb2_clock_freq", .pyInt c.apb2_clock_freq),
    ("timer_clock_freq", .pyInt c.timer_clock_freq),
    ("timer_resolution_ns", .pyInt c.timer_resolution_ns)]

/-- `dataclasses.asdict` on a `MemoryConfig`. -/
def asdictMemory (m : MemoryConfig) : PyValue :=
  .pyDict [
    ("flash_size_kb", .pyInt m.flash_size_kb),
    ("ram_size_kb", .pyInt m.ram_size_kb),
    ("ccm_size_kb", .pyInt m.ccm_size_kb),
    ("heap_size_kb", .pyInt m.heap_size_kb),
    ("stack_size_kb", .pyInt m.stack_size_kb)]

/-- `dataclasses.asdict` on a `PeripheralConfig`. -/
def asdictPeripheral (p : PeripheralConfig) : PyValue :=
  .pyDict [
    ("gpio_port_count", .pyInt p.gpio_port_count),
    ("uart_count", .pyInt p.uart_count),
    ("spi_count", .pyInt p.spi_count),
    ("i2c_count", .pyInt p.i2c_count),
    ("adc_count", .pyInt p.adc_count),
    ("dac_count", .pyInt p.dac_count),
    ("timer_count", .pyInt p.timer_count),
    ("dma_controller_count", .pyInt p.dma_controller_count),
    ("dma_stream_count", .pyInt p.dma_stream_count)]

/-- `dataclasses.asdict` on a `FeatureConfig`. -/
def asdictFeature (f : FeatureConfig) : PyValue :=
  .pyDict [
    ("has_fpu", .pyBool f.has_fpu),
    ("has_dsp", .pyBool f.has_dsp),
    ("has_mpu", .pyBool f.has_mpu),
    ("has_cache", .pyBool f.has_cache),
    ("has_dma", .pyBool f.has_dma),
    ("has_crypto", .pyBool f.has_crypto),
    ("has_ethernet", .pyBool f.has_ethernet),
    ("has_usb", .pyBool f.has_usb)]

/-- `dataclasses.asdict` on a `ModuleConfig`. -/
def asdictModule (m : ModuleConfig) : PyValue :=
  .pyDict [
    ("power_management_enabled", .pyBool m.power_management_enabled),
    ("memory_monitor_enabled", .pyBool m.memory_monitor_enabled),
    ("watchdog_enabled", .pyBool m.watchdog_enabled),
    ("gpio_abstraction_enabled", .pyBool m.gpio_abstraction_enabled),
    ("uart_abstraction_enabled", .pyBool m.uart_abstraction_enabled),
    ("spi_abstraction_enabled", .pyBool m.spi_abstraction_enabled),
    ("i2c_abstraction_enabled", .pyBool m.i2c_abstraction_enabled),
    ("adc_abstraction_enabled", .pyBool m.adc_abstraction_enabled),
    ("dac_abstraction_enabled", .pyBool m.dac_abstraction_enabled),
    ("dma_abstraction_enabled", .pyBool m.dma_abstraction_enabled),
    ("security_enabled", .pyBool m.security_enabled),
    ("network_enabled", .pyBool m.network_enabled),
    ("ota_enabled", .pyBool m.ota_enabled),
    ("debug_tools_enabled", .pyBool m.debug_tools_enabled)]

/-- `dataclasses.asdict` on a `DebugConfig`. -/
def asdictDebug (d : DebugConfig) : PyValue :=
  .pyDict [
    ("debug_enabled", .pyBool d.debug_enabled),
    ("error_check_enabled", .pyBool d.error_check_enabled),
    ("performance_profiling_enabled", .pyBool d.performance_profiling_enabled),
    ("system_tracing_enabled", .pyBool d.system_tracing_enabled),
    ("memory_leak_detection_enabled", .pyBool d.memory_leak_detection_enabled)]

/-- `dataclasses.asdict(config)` for a `PlatformConfig`: nested dataclasses
are recursively turned into dicts, but the `PlatformType` enum member is
left untouched (it is merely deep-copied). -/
def asdict (c : PlatformConfig) : PyValue :=
  .pyDict [
    ("platform_type", .pyEnum c.platform_type),
    ("platform_name", .pyStr c.platform_name),
    ("clock", asdictClock c.clock),
    ("memory", asdictMemory c.memory),
    ("peripheral", asdictPeripheral c.peripheral),
    ("feature", asdictFeature c.feature),
    ("module", asdictModule c.module),
    ("debug", asdictDebug c.debug)]

mutual

/-- Whether `json.dump` can serialize the value: dicts, lists, strings,
ints, bools and `None` are serializable; an enum member (not an `int` or
`str` subclass) makes the default encoder raise `TypeError`. -/
def json_serializable : PyValue → Bool
  | .pyInt _ => true
  | .pyStr _ => true
  | .pyBool _ => true
  | .pyNull => true
  | .pyList xs => json_serializable_list xs
  | .pyDict fs => json_serializable_fields fs
  | .pyEnum _ => false

/-- All elements of a list are serializable. -/
def json_serializable_list : List PyValue → Bool
  | [] => true
  | x :: xs => json_serializable x && json_serializable_list xs

/-- All values of a dict are serializable (keys are strings already). -/
def json_serializable_fields : List (String × PyValue) → Bool
  | [] => true
  | (_, v) :: fs => json_serializable v && json_serializable_fields fs

end

/-- The Python object built by `PlatformConfig(**config_dict)` in
`load_config_json`: a `PlatformConfig` instance whose eight fields hold the
raw JSON values (plain dicts, strings, numbers) — no nested dataclass or
enum is reconstructed. -/
structure DecodedConfig where
  platform_type : PyValue
  platform_name : PyValue
  clock : PyValue
  memory : PyValue
  peripheral : PyValue
  feature : PyValue
  module : PyValue
  debug : PyValue

/-- The eight parameter names of `PlatformConfig.__init__`. -/
def requiredFields : List String :=
  ["platform_type", "platform_name", "clock", "memory", "peripheral",
   "feature", "module", "debug"]

/-- `load_config_json` applied to an already-parsed JSON value:
`PlatformConfig(**config_dict)` succeeds iff the argument is a dict whose
key set is exactly the eight field names (a missing required parameter or
an unexpected keyword raises `TypeError`, caught and turned into `None`;
non-dict input fails at `**`-unpacking).  No default is ever substituted:
every field of the result is the value found in the input. -/
def load_config_json : PyValue → Option DecodedConfig
  | .pyDict fs =>
    if fs.length == 8 && requiredFields.all (fun k => (fs.lookup k).isSome) then
      some {
        platform_type := (fs.lookup "platform_type").getD .pyNull
        platform_name := (fs.lookup "platform_name").getD .pyNull
        clock := (fs.lookup "clock").getD .pyNull
        memory := (fs.lookup "memory").getD .pyNull
        peripheral := (fs.lookup "peripheral").getD .pyNull
        feature := (fs.lookup "feature").getD .pyNull
        module := (fs.lookup "module").getD .pyNull
        debug := (fs.lookup "debug").getD .pyNull }
    else none
  | _ => none

/-- An entry of `self.platforms`: either a built-in preset (a fully typed
`PlatformConfig`) or an externally decoded configuration installed by the
override path `generator.platforms[platform] = custom_config` in `main`. -/
inductive Entry where
  | preset (c : PlatformConfig)
  | decoded (d : DecodedConfig)

/-- The registry `self.platforms`: an insertion-ordered dict from
`PlatformType` to its entry. -/
abbrev Registry := List (PlatformType × Entry)

/-- `_init_default_platforms`: presets registered for STM32F4, STM32F1 and
STM32F7, in that insertion order. -/
def init_default_platforms : Registry :=
  [(.STM32F4, .preset stm32f4Config),
   (.STM32F1, .preset stm32f1Config),
   (.STM32F7, .preset stm32f7Config)]

/-- `self.platforms[platform]` lookup (`platform in self.platforms` check). -/
def lookupPlatform (reg : Registry) (p : PlatformType) : Option Entry :=
  List.lookup p reg

/-- `self.platforms[platform] = entry`: Python dict assignment replaces the
value in place if the key exists, otherwise appends a new binding. -/
def setPlatform (reg : Registry) (p : PlatformType) (e : Entry) : Registry :=
  if (List.lookup p reg).isSome then
    reg.map (fun kv => if kv.1 == p then (p, e) else kv)
  else
    reg ++ [(p, e)]

/-- The identifier stored in a registry entry, as the Python attribute
`entry.platform_type`: the enum member for a preset, the raw decoded JSON
value for an externally loaded configuration. -/
def entryIdent : Entry → PyValue
  | .preset c => .pyEnum c.platform_type
  | .decoded d => d.platform_type

/-- Python `==` between a stored identifier and an enum key: enum members
compare equal only to themselves; a string (or any other JSON value) is
never equal to an enum member. -/
def identMatches (v : PyValue) (p : PlatformType) : Bool :=
  match v with
  | .pyEnum q => q == p
  | _ => false

/-- `{1 if flag else 0}` in the header template. -/
def boolBit (b : Bool) : String := if b then "1" else "0"

/-- The body of the `header_content` f-string in `generate_config_header`
(lines up to and including the `平台特定宏定义` comment), as its lines. -/
def header_top_lines (p : PlatformType) (c : PlatformConfig) : List String := [
  "/**",
  " * @file hw_config_generated.h",
  " * @brief RTOS硬件配置 - 自动生成 (" ++ c.platform_name ++ ")",
  " * @author Config Generator Tool",
  " * @date 2024",
  " */",
  "",
  "#ifndef __RTOS_HW_CONFIG_GENERATED_H__",
  "#define __RTOS_HW_CONFIG_GENERATED_H__",
  "",
  "/* 平台标识 */",
  "#define RTOS_PLATFORM_NAME                \"" ++ c.platform_name ++ "\"",
  "#define RTOS_PLATFORM_TYPE                " ++ p.value.toUpper,
  "",
  "/* 时钟配置 */",
  "#define RTOS_HW_SYSTEM_CLOCK_FREQ          " ++ toString c.clock.system_clock_freq,
  "#define RTOS_HW_CPU_CLOCK_FREQ             " ++ toString c.clock.cpu_clock_freq,
  "#define RTOS_HW_APB1_CLOCK_FREQ            " ++ toString c.clock.apb1_clock_freq,
  "#define RTOS_HW_APB2_CLOCK_FREQ            " ++ toString c.clock.apb2_clock_freq,
  "#define RTOS_HW_TIMER_CLOCK_FREQ           " ++ toString c.clock.timer_clock_freq,
  "#define RTOS_HW_TIMER_RESOLUTION_NS        " ++ toString c.clock.timer_resolution_ns,
  "",
  "/* 内存配置 */",
  "#define RTOS_HW_FLASH_SIZE                 " ++ toString c.memory.flash_size_kb,
  "#define RTOS_HW_SRAM_SIZE                  " ++ toString c.memory.ram_size_kb,
  "#define RTOS_HW_CCM_SIZE                   " ++ toString c.memory.ccm_size_kb,
  "#define RTOS_HW_HEAP_SIZE                  " ++ toString c.memory.heap_size_kb,
  "#define RTOS_HW_STACK_SIZE                 " ++ toString c.memory.stack_size_kb,
  "",
  "/* 外设配置 */",
  "#define RTOS_HW_GPIO_PORT_COUNT            " ++ toString c.peripheral.gpio_port_count,
  "#define RTOS_HW_UART_COUNT                 " ++ toString c.peripheral.uart_count,
  "#define RTOS_HW_SPI_COUNT                  " ++ toString c.peripheral.spi_count,
  "#define RTOS_HW_I2C_COUNT                  " ++ toString c.peripheral.i2c_count,
  "#define RTOS_HW_ADC_COUNT                  " ++ toString c.peripheral.adc_count,
  "#define RTOS_HW_DAC_COUNT                  " ++ toString c.peripheral.dac_count,
  "#define RTOS_HW_TIMER_COUNT                " ++ toString c.peripheral.timer_count,
  "#define RTOS_HW_DMA_CONTROLLER_COUNT       " ++ toString c.peripheral.dma_controller_count,
  "#define RTOS_HW_DMA_STREAM_COUNT           " ++ toString c.peripheral.dma_stream_count,
  "",
  "/* 硬件特性配置 */",
  "#define RTOS_HW_SUPPORT_FPU                " ++ boolBit c.feature.has_fpu,
  "#define RTOS_HW_SUPPORT_DSP                " ++ boolBit c.feature.has_dsp,
  "#define RTOS_HW_SUPPORT_MPU                " ++ boolBit c.feature.has_mpu,
  "#define RTOS_HW_SUPPORT_CACHE              " ++ boolBit c.feature.has_cache,
  "#define RTOS_HW_SUPPORT_DMA                " ++ boolBit c.feature.has_dma,
  "#define RTOS_HW_SUPPORT_CRYPTO             " ++ boolBit c.feature.has_crypto,
  "#define RTOS_HW_SUPPORT_ETHERNET           " ++ boolBit c.feature.has_ethernet,
  "#define RTOS_HW_SUPPORT_USB                " ++ boolBit c.feature.has_usb,
  "",
  "/* 模块使能配置 */",
  "#define RTOS_HW_ENABLE_POWER_MGMT          " ++ boolBit c.module.power_management_enabled,
  "#define RTOS_HW_ENABLE_MEMORY_MONITOR      " ++ boolBit c.module.memory_monitor_enabled,
  "#define RTOS_HW_ENABLE_WATCHDOG            " ++ boolBit c.module.watchdog_enabled,
  "#define RTOS_HW_ENABLE_GPIO                " ++ boolBit c.module.gpio_abstraction_enabled,
  "#define RTOS_HW_ENABLE_UART                " ++ boolBit c.module.uart_abstraction_enabled,
  "#define RTOS_HW_ENABLE_SPI                 " ++ boolBit c.module.spi_abstraction_enabled,
  "#define RTOS_HW_ENABLE_I2C                 " ++ boolBit c.module.i2c_abstraction_enabled,
  "#define RTOS_HW_ENABLE_ADC                 " ++ boolBit c.module.adc_abstraction_enabled,
  "#define RTOS_HW_ENABLE_DAC                 " ++ boolBit c.module.dac_abstraction_enabled,
  "#define RTOS_HW_ENABLE_DMA                 " ++ boolBit c.module.dma_abstraction_enabled,
  "#define RTOS_HW_ENABLE_SECURITY            " ++ boolBit c.module.security_enabled,
  "#define RTOS_HW_ENABLE_NETWORK             " ++ boolBit c.module.network_enabled,
  "#define RTOS_HW_ENABLE_OTA                 " ++ boolBit c.module.ota_enabled,
  "#define RTOS_HW_ENABLE_DEBUG_TOOLS         " ++ boolBit c.module.debug_tools_enabled,
  "",
  "/* 调试配置 */",
  "#define RTOS_HW_DEBUG                      " ++ boolBit c.debug.debug_enabled,
  "#define RTOS_HW_ERROR_CHECK                " ++ boolBit c.debug.error_check_enabled,
  "#define RTOS_PERFORMANCE_PROFILING_ENABLED " ++ boolBit c.debug.performance_profiling_enabled,
  "#define RTOS_SYSTEM_TRACING_ENABLED        " ++ boolBit c.debug.system_tracing_enabled,
  "#define RTOS_MEMORY_LEAK_DETECTION         " ++ boolBit c.debug.memory_leak_detection_enabled,
  "",
  "/* 模块特定调试配置 */",
  "#define RTOS_POWER_DEBUG                   RTOS_HW_DEBUG",
  "#define RTOS_POWER_ERROR_CHECK             RTOS_HW_ERROR_CHECK",
  "#define RTOS_MEMORY_DEBUG                  RTOS_HW_DEBUG",
  "#define RTOS_MEMORY_ERROR_CHECK            RTOS_HW_ERROR_CHECK",
  "#define RTOS_WATCHDOG_DEBUG                RTOS_HW_DEBUG",
  "#define RTOS_WATCHDOG_ERROR_CHECK          RTOS_HW_ERROR_CHECK",
  "#define RTOS_GPIO_DEBUG                    RTOS_HW_DEBUG",
  "#define RTOS_GPIO_ERROR_CHECK              RTOS_HW_ERROR_CHECK",
  "#define RTOS_UART_DEBUG                    RTOS_HW_DEBUG",
  "#define RTOS_UART_ERROR_CHECK              RTOS_HW_ERROR_CHECK",
  "#define RTOS_SPI_DEBUG                     RTOS_HW_DEBUG",
  "#define RTOS_SPI_ERROR_CHECK               RTOS_HW_ERROR_CHECK",
  "#define RTOS_I2C_DEBUG                     RTOS_HW_DEBUG",
  "#define RTOS_I2C_ERROR_CHECK               RTOS_HW_ERROR_CHECK",
  "#define RTOS_ADC_DEBUG                     RTOS_HW_DEBUG",
  "#define RTOS_ADC_ERROR_CHECK               RTOS_HW_ERROR_CHECK",
  "#define RTOS_DAC_DEBUG                     RTOS_HW_DEBUG",
  "#define RTOS_DAC_ERROR_CHECK               RTOS_HW_ERROR_CHECK",
  "#define RTOS_DMA_DEBUG                     RTOS_HW_DEBUG",
  "#define RTOS_DMA_ERROR_CHECK               RTOS_HW_ERROR_CHECK",
  "",
  "/* 平台特定宏定义 */"]

/-- The literal per-platform identity-macro block appended after the
header template (nothing for RISC_V / X86_64). -/
def platform_macro_lines : PlatformType → List String
  | .STM32F4 => [
      "",
      "#define STM32F40_41xxx                     1",
      "#define USE_STDPERIPH_DRIVER               1",
      "#define HSE_VALUE                          25000000"]
  | .STM32F1 => [
      "",
      "#define STM32F10X_HD                       1",
      "#define USE_STDPERIPH_DRIVER               1",
      "#define HSE_VALUE                          8000000"]
  | .STM32F7 => [
      "",
      "#define STM32F767xx                        1",
      "#define USE_HAL_DRIVER                     1",
      "#define HSE_VALUE                          25000000"]
  | _ => []

/-- The full text of the generated header, as its lines. -/
def header_content (p : PlatformType) (c : PlatformConfig) : List String :=
  header_top_lines p c ++ platform_macro_lines p ++
  ["",
   "#endif /* __RTOS_HW_CONFIG_GENERATED_H__ */"]

/-- The first f-string segment of `generate_makefile` (platform block). -/
def makefile_intro_lines (p : PlatformType) (c : PlatformConfig) : List String := [
  "# RTOS硬件抽象层Makefile - 自动生成 (" ++ c.platform_name ++ ")",
  "# Generated by Config Generator Tool",
  "",
  "# 平台配置",
  "PLATFORM = " ++ p.value,
  "PLATFORM_NAME = " ++ c.platform_name,
  "",
  "# 编译器配置"]

/-- The compiler-identification block of `generate_makefile`: the ARM
toolchain for the three STM32 identifiers, the RISC-V toolchain for
`RISC_V`, and nothing for `X86_64` (no branch matches). -/
def makefile_compiler_lines : PlatformType → List String
  | .STM32F1 | .STM32F4 | .STM32F7 => [
      "CC = arm-none-eabi-gcc",
      "OBJCOPY = arm-none-eabi-objcopy",
      "SIZE = arm-none-eabi-size",
      "",
      "# CPU配置",
      "CPU = -mcpu=cortex-m4 -mthumb -mfpu=fpv4-sp-d16 -mfloat-abi=hard"]
  | .RISC_V => [
      "CC = riscv64-unknown-elf-gcc",
      "OBJCOPY = riscv64-unknown-elf-objcopy",
      "SIZE = riscv64-unknown-elf-size",
      "",
      "# CPU配置",
      "CPU = -march=rv32imac -mabi=ilp32"]
  | .X86_64 => []

/-- The fixed segment of `generate_makefile` holding the compile flags,
include paths and base source list (no interpolation in the template). -/
def makefile_flags_base_lines : List String := [
  "",
  "# 编译标志",
  "CFLAGS = $(CPU) -Os -g3 -Wall -Wextra -Wno-unused-parameter",
  "CFLAGS += -DSTM32F40_41xxx -DUSE_STDPERIPH_DRIVER -DHSE_VALUE=25000000",
  "",
  "# 包含路径",
  "INCLUDES = -I. -Irtos -Irtos/core -Irtos/hw -Irtos/hw/security -Irtos/hw/network -Irtos/hw/ota -Irtos/hw/debug",
  "INCLUDES += -Ifwlib/inc -Ifwlib/CMSIS/STM32F4xx/Include -Ifwlib/CMSIS/Include",
  "",
  "# 源文件",
  "SOURCES = main_hw_enhanced.c system_support.c",
  "SOURCES += rtos/system.c",
  "SOURCES += rtos/hw/hw_abstraction.c rtos/hw/interrupt_handler.c",
  "",
  "# 新增模块源文件"]

/-- The conditionally appended module source lines of `generate_makefile`:
one append-if-true per flag, in the order of the source (eight flags). -/
def makefile_module_source_lines (m : ModuleConfig) : List String :=
  (if m.power_management_enabled then ["SOURCES += rtos/hw/power_management.c"] else []) ++
  (if m.memory_monitor_enabled then ["SOURCES += rtos/hw/memory_monitor.c"] else []) ++
  (if m.watchdog_enabled then ["SOURCES += rtos/hw/watchdog_manager.c"] else []) ++
  (if m.gpio_abstraction_enabled then ["SOURCES += rtos/hw/gpio_abstraction.c"] else []) ++
  (if m.uart_abstraction_enabled then ["SOURCES += rtos/hw/uart_abstraction.c"] else []) ++
  (if m.spi_abstraction_enabled then ["SOURCES += rtos/hw/spi_abstraction.c"] else []) ++
  (if m.i2c_abstraction_enabled then ["SOURCES += rtos/hw/i2c_abstraction.c"] else []) ++
  (if m.dma_abstraction_enabled then ["SOURCES += rtos/hw/dma_abstraction.c"] else [])

/-- The fixed tail of `generate_makefile`: firmware-library sources,
objects, link script, link flags and the `all`/`clean`/`info` targets. -/
def makefile_tail_lines : List String := [
  "",
  "# 固件库源文件",
  "FWLIB_SOURCES = fwlib/src/stm32f4xx_rcc.c fwlib/src/stm32f4xx_tim.c",
  "FWLIB_SOURCES += fwlib/src/stm32f4xx_gpio.c fwlib/src/stm32f4xx_usart.c",
  "FWLIB_SOURCES += fwlib/src/stm32f4xx_pwr.c fwlib/src/stm32f4xx_adc.c",
  "FWLIB_SOURCES += fwlib/src/stm32f4xx_iwdg.c fwlib/src/stm32f4xx_wwdg.c",
  "FWLIB_SOURCES += fwlib/src/stm32f4xx_dma.c fwlib/src/stm32f4xx_spi.c",
  "FWLIB_SOURCES += fwlib/src/stm32f4xx_i2c.c fwlib/src/stm32f4xx_dac.c",
  "FWLIB_SOURCES += fwlib/src/misc.c",
  "",
  "# 目标文件",
  "OBJECTS = $(SOURCES:.c=.o) $(FWLIB_SOURCES:.c=.o) startup_stm32f407xx.o",
  "",
  "# 链接脚本",
  "LDSCRIPT = STM32F407VGTx_FLASH.ld",
  "",
  "# 链接标志",
  "LDFLAGS = $(CPU) -specs=nano.specs -specs=nosys.specs",
  "LDFLAGS += -T$(LDSCRIPT) -Wl,--gc-sections -Wl,--print-memory-usage",
  "",
  "# 目标",
  "TARGET = rtos_hw_enhanced",
  "",
  ".PHONY: all clean",
  "",
  "all: $(TARGET).elf $(TARGET).bin $(TARGET).hex",
  "",
  "$(TARGET).elf: $(OBJECTS)",
  "\t$(CC) $(LDFLAGS) $^ -o $@ -lm",
  "\t$(SIZE) $@",
  "",
  "$(TARGET).bin: $(TARGET).elf",
  "\t$(OBJCOPY) -O binary $< $@",
  "",
  "$(TARGET).hex: $(TARGET).elf",
  "\t$(OBJCOPY) -O ihex $< $@",
  "",
  "%.o: %.c",
  "\t$(CC) $(CFLAGS) $(INCLUDES) -c $< -o $@",
  "",
  "%.o: %.s",
  "\t$(CC) $(CFLAGS) -c $< -o $@",
  "",
  "clean:",
  "\t@echo \"清理编译文件...\"",
  "\trm -f $(OBJECTS) $(TARGET).elf $(TARGET).bin $(TARGET).hex $(TARGET).map",
  "",
  "info:",
  "\t@echo \"平台: $(PLATFORM_NAME)\"",
  "\t@echo \"编译器: $(CC)\"",
  "\t@echo \"源文件数: $(words $(SOURCES))\"",
  "\t@echo \"固件库文件数: $(words $(FWLIB_SOURCES))\""]

/-- The full text of the generated Makefile, as its lines, concatenated in
the order the source appends its segments. -/
def makefile_content (p : PlatformType) (c : PlatformConfig) : List String :=
  makefile_intro_lines p c ++ makefile_compiler_lines p ++
  makefile_flags_base_lines ++ makefile_module_source_lines c.module ++
  makefile_tail_lines

/-- The first f-string segment of `generate_cmake_file`. -/
def cmake_intro_lines (p : PlatformType) (c : PlatformConfig) : List String := [
  "# RTOS硬件抽象层CMake配置 - 自动生成 (" ++ c.platform_name ++ ")",
  "# Generated by Config Generator Tool",
  "",
  "cmake_minimum_required(VERSION 3.16)",
  "",
  "# 项目配置",
  "project(rtos_hw_enhanced",
  "    VERSION 1.0.0",
  "    DESCRIPTION \"RTOS Hardware Abstraction Layer Enhanced\"",
  "    LANGUAGES C ASM",
  ")",
  "",
  "# 平台配置",
  "set(PLATFORM_TYPE " ++ p.value ++ ")",
  "set(PLATFORM_NAME " ++ c.platform_name ++ ")",
  "",
  "# 编译器配置"]

/-- The toolchain block of `generate_cmake_file`: ARM settings for the
three STM32 identifiers, nothing otherwise (no `elif` in the source). -/
def cmake_compiler_lines : PlatformType → List String
  | .STM32F1 | .STM32F4 | .STM32F7 => [
      "set(CMAKE_SYSTEM_NAME Generic)",
      "set(CMAKE_SYSTEM_PROCESSOR arm)",
      "",
      "set(CMAKE_C_COMPILER arm-none-eabi-gcc)",
      "set(CMAKE_ASM_COMPILER arm-none-eabi-gcc)",
      "set(CMAKE_OBJCOPY arm-none-eabi-objcopy)",
      "set(CMAKE_SIZE arm-none-eabi-size)",
      "",
      "# CPU配置",
      "set(CPU_FLAGS \"-mcpu=cortex-m4 -mthumb -mfpu=fpv4-sp-d16 -mfloat-abi=hard\")"]
  | _ => []

/-- The fixed segment of `generate_cmake_file` with flags, include
directories and the base source list (the `{{`/`}}` escapes of the
f-string render as single braces). -/
def cmake_flags_base_lines : List String := [
  "",
  "# 编译标志",
  "set(CMAKE_C_FLAGS \"${CPU_FLAGS} -Os -g3 -Wall -Wextra -Wno-unused-parameter\")",
  "set(CMAKE_C_FLAGS \"${CMAKE_C_FLAGS} -DSTM32F40_41xxx -DUSE_STDPERIPH_DRIVER -DHSE_VALUE=25000000\")",
  "",
  "# 包含目录",
  "include_directories(",
  "    .",
  "    rtos",
  "    rtos/core",
  "    rtos/hw",
  "    rtos/hw/security",
  "    rtos/hw/network",
  "    rtos/hw/ota",
  "    rtos/hw/debug",
  "    fwlib/inc",
  "    fwlib/CMSIS/STM32F4xx/Include",
  "    fwlib/CMSIS/Include",
  ")",
  "",
  "# 源文件",
  "set(SOURCES",
  "    main_hw_enhanced.c",
  "    system_support.c",
  "    rtos/system.c",
  "    rtos/hw/hw_abstraction.c",
  "    rtos/hw/interrupt_handler.c"]

/-- The conditionally appended module source lines of
`generate_cmake_file`: one append-if-true per flag, in source order
(six flags — no SPI and no I2C rule, unlike the Makefile). -/
def cmake_module_source_lines (m : ModuleConfig) : List String :=
  (if m.power_management_enabled then ["    rtos/hw/power_management.c"] else []) ++
  (if m.memory_monitor_enabled then ["    rtos/hw/memory_monitor.c"] else []) ++
  (if m.watchdog_enabled then ["    rtos/hw/watchdog_manager.c"] else []) ++
  (if m.gpio_abstraction_enabled then ["    rtos/hw/gpio_abstraction.c"] else []) ++
  (if m.uart_abstraction_enabled then ["    rtos/hw/uart_abstraction.c"] else []) ++
  (if m.dma_abstraction_enabled then ["    rtos/hw/dma_abstraction.c"] else [])

/-- The fixed tail of `generate_cmake_file`: firmware-library sources,
executable target, link configuration and the post-build objcopy step. -/
def cmake_tail_lines : List String := [
  ")",
  "",
  "# 固件库源文件",
  "set(FWLIB_SOURCES",
  "    fwlib/src/stm32f4xx_rcc.c",
  "    fwlib/src/stm32f4xx_tim.c",
  "    fwlib/src/stm32f4xx_gpio.c",
  "    fwlib/src/stm32f4xx_usart.c",
  "    fwlib/src/stm32f4xx_pwr.c",
  "    fwlib/src/stm32f4xx_adc.c",
  "    fwlib/src/stm32f4xx_iwdg.c",
  "    fwlib/src/stm32f4xx_wwdg.c",
  "    fwlib/src/stm32f4xx_dma.c",
  "    fwlib/src/misc.c",
  ")",
  "",
  "# 创建可执行文件",
  "add_executable(${PROJECT_NAME}.elf",
  "    ${SOURCES}",
  "    ${FWLIB_SOURCES}",
  "    startup_stm32f407xx.s",
  ")",
  "",
  "# 链接配置",
  "set_target_properties(${PROJECT_NAME}.elf PROPERTIES",
  "    LINK_FLAGS \"${CPU_FLAGS} -specs=nano.specs -specs=nosys.specs -T${CMAKE_SOURCE_DIR}/STM32F407VGTx_FLASH.ld -Wl,--gc-sections -Wl,--print-memory-usage\"",
  ")",
  "",
  "target_link_libraries(${PROJECT_NAME}.elf m)",
  "",
  "# 生成二进制文件",
  "add_custom_command(TARGET ${PROJECT_NAME}.elf POST_BUILD",
  "    COMMAND ${CMAKE_OBJCOPY} -O binary $<TARGET_FILE:${PROJECT_NAME}.elf> ${PROJECT_NAME}.bin",
  "    COMMAND ${CMAKE_OBJCOPY} -O ihex $<TARGET_FILE:${PROJECT_NAME}.elf> ${PROJECT_NAME}.hex",
  "    COMMAND ${CMAKE_SIZE} $<TARGET_FILE:${PROJECT_NAME}.elf>",
  "    COMMENT \"生成二进制文件和显示大小信息\"",
  ")"]

/-- The full text of the generated CMakeLists.txt, as its lines. -/
def cmake_content (p : PlatformType) (c : PlatformConfig) : List String :=
  cmake_intro_lines p c ++ cmake_compiler_lines p ++
  cmake_flags_base_lines ++ cmake_module_source_lines c.module ++
  cmake_tail_lines

/-- Failure kinds of the generator methods: `notFound` models the
`platform not in self.platforms` early `return False` (no artifact
written); `pyError` models an exception raised while the artifact text is
built — on an externally decoded entry the nested sections are plain JSON
dicts, so attribute accesses such as `config.clock.system_clock_freq` or
`config.module.power_management_enabled` raise `AttributeError` before any
write happens. -/
inductive RenderError where
  | notFound
  | pyError
deriving DecidableEq, Repr

/-- `generate_config_header`, returning the artifact lines instead of
writing them (the filesystem write is an external collaborator). -/
def generate_config_header (reg : Registry) (p : PlatformType) :
    Except RenderError (List String) :=
  match lookupPlatform reg p with
  | none => .error .notFound
  | some (.preset c) => .ok (header_content p c)
  | some (.decoded _) => .error .pyError

/-- `generate_makefile`, returning the artifact lines. -/
def generate_makefile (reg : Registry) (p : PlatformType) :
    Except RenderError (List String) :=
  match lookupPlatform reg p with
  | none => .error .notFound
  | some (.preset c) => .ok (makefile_content p c)
  | some (.decoded _) => .error .pyError

/-- `generate_cmake_file`, returning the artifact lines. -/
def generate_cmake_file (reg : Registry) (p : PlatformType) :
    Except RenderError (List String) :=
  match lookupPlatform reg p with
  | none => .error .notFound
  | some (.preset c) => .ok (cmake_content p c)
  | some (.decoded _) => .error .pyError

/-- `dataclasses.asdict` applied to a decoded `PlatformConfig` instance:
its fields are already plain JSON values, which are deep-copied as-is. -/
def asdictDecoded (d : DecodedConfig) : PyValue :=
  .pyDict [
    ("platform_type", d.platform_type),
    ("platform_name", d.platform_name),
    ("clock", d.clock),
    ("memory", d.memory),
    ("peripheral", d.peripheral),
    ("feature", d.feature),
    ("module", d.module),
    ("debug", d.debug)]

/-- `dataclasses.asdict` on whatever `PlatformConfig` instance a registry
entry holds. -/
def asdictEntry : Entry → PyValue
  | .preset c => asdict c
  | .decoded d => asdictDecoded d

/-- `save_config_json`: fails silently when the platform has no entry;
otherwise runs `json.dump(asdict(config), …)`, which raises `TypeError`
(caught, `return False`) exactly when the dictionary is not serializable. -/
def save_config_json (reg : Registry) (p : PlatformType) :
    Except RenderError Unit :=
  match lookupPlatform reg p with
  | none => .error .notFound
  | some e => if json_serializable (asdictEntry e) then .ok () else .error .pyError

/-- The round trip `load_config_json` after `save_config_json` on a typed
`PlatformConfig`: bytes exist only if `json.dump` succeeded, and
serializable values survive the dump/parse cycle unchanged, so decoding is
applied to the very dictionary that was serialized. -/
def save_then_load (c : PlatformConfig) : Option DecodedConfig :=
  if json_serializable (asdict c) then load_config_json (asdict c) else none

/-- Classification of a generator result as the `NotFound` early return. -/
def isNotFound : Except RenderError (List String) → Bool
  | .error .notFound => true
  | _ => false

/-- A `ModuleConfig` with every one of the fourteen flags enabled. -/
def allModulesOn : ModuleConfig :=
  ⟨true, true, true, true, true, true, true,
   true, true, true, true, true, true, true⟩

/-- All flags on except power management. -/
def allButPower : ModuleConfig :=
  { allModulesOn with power_management_enabled := false }

/-- All flags on except the memory monitor. -/
def allButMemoryMonitor : ModuleConfig :=
  { allModulesOn with memory_monitor_enabled := false }

/-- All flags on except the watchdog. -/
def allButWatchdog : ModuleConfig :=
  { allModulesOn with watchdog_enabled := false }

/-- All flags on except the GPIO abstraction. -/
def allButGpio : ModuleConfig :=
  { allModulesOn with gpio_abstraction_enabled := false }

/-- All flags on except the UART abstraction. -/
def allButUart : ModuleConfig :=
  { allModulesOn with uart_abstraction_enabled := false }

/-- All flags on except the SPI abstraction. -/
def allButSpi : ModuleConfig :=
  { allModulesOn with spi_abstraction_enabled := false }

/-- All flags on except the I2C abstraction. -/
def allButI2c : ModuleConfig :=
  { allModulesOn with i2c_abstraction_enabled := false }

/-- All flags on except the DMA abstraction. -/
def allButDma : ModuleConfig :=
  { allModulesOn with dma_abstraction_enabled := false }

/-- All flags on except OTA (one of the flags no build renderer tests). -/
def allButOta : ModuleConfig :=
  { allModulesOn with ota_enabled := false }

/-- The eight conditional Makefile source lines, in emission order. -/
def makefileEightSourceLines : List String := [
  "SOURCES += rtos/hw/power_management.c",
  "SOURCES += rtos/hw/memory_monitor.c",
  "SOURCES += rtos/hw/watchdog_manager.c",
  "SOURCES += rtos/hw/gpio_abstraction.c",
  "SOURCES += rtos/hw/uart_abstraction.c",
  "SOURCES += rtos/hw/spi_abstraction.c",
  "SOURCES += rtos/hw/i2c_abstraction.c",
  "SOURCES += rtos/hw/dma_abstraction.c"]

/-- A JSON document for the STM32F4 platform in the shape the spec intends
the JSON artifact to have: all eight sections present, nested sections as
plain objects and the platform identifier as its string value. -/
def sampleStm32f4Json : PyValue :=
  .pyDict [
    ("platform_type", .pyStr "stm32f4"),
    ("platform_name", .pyStr "STM32F407VGT6"),
    ("clock", asdictClock stm32f4Config.clock),
    ("memory", asdictMemory stm32f4Config.memory),
    ("peripheral", asdictPeripheral stm32f4Config.peripheral),
    ("feature", asdictFeature stm32f4Config.feature),
    ("module", asdictModule stm32f4Config.module),
    ("debug", asdictDebug stm32f4Config.debug)]

/-- The object `load_config_json` builds from `sampleStm32f4Json`: the
fields hold the raw JSON values, in particular the identifier stays the
string `"stm32f4"`. -/
def sampleDecodedF4 : DecodedConfig where
  platform_type := .pyStr "stm32f4"
  platform_name := .pyStr "STM32F407VGT6"
  clock := asdictClock stm32f4Config.clock
  memory := asdictMemory stm32f4Config.memory
  peripheral := asdictPeripheral stm32f4Config.peripheral
  feature := asdictFeature stm32f4Config.feature
  module := asdictModule stm32f4Config.module
  debug := asdictDebug stm32f4Config.debug

/-- A singleton-or-empty conditional block is a sublist of its singleton. -/
theorem if_singleton_sublist (b : Bool) (x : String) :
    List.Sublist (if b then [x] else []) [x] := by
  cases b <;> simp

/-- The Makefile conditional source block reads exactly the eight flags it
tests: configurations agreeing on those eight yield the same block. -/
theorem makefile_module_source_lines_congr (m m' : ModuleConfig)
    (h1 : m.power_management_enabled = m'.power_management_enabled)
    (h2 : m.memory_monitor_enabled = m'.memory_monitor_enabled)
    (h3 : m.watchdog_enabled = m'.watchdog_enabled)
    (h4 : m.gpio_abstraction_enabled = m'.gpio_abstraction_enabled)
    (h5 : m.uart_abstraction_enabled = m'.uart_abstraction_enabled)
    (h6 : m.spi_abstraction_enabled = m'.spi_abstraction_enabled)
    (h7 : m.i2c_abstraction_enabled = m'.i2c_abstraction_enabled)
    (h8 : m.dma_abstraction_enabled = m'.dma_abstraction_enabled) :
    makefile_module_source_lines m = makefile_module_source_lines m' := by
  simp only [makefile_module_source_lines, h1, h2, h3, h4, h5, h6, h7, h8]

/-- The CMake conditional source block reads exactly the six flags it
tests: configurations agreeing on those six yield the same block. -/
theorem cmake_module_source_lines_congr (m m' : ModuleConfig)
    (h1 : m.power_management_enabled = m'.power_management_enabled)
    (h2 : m.memory_monitor_enabled = m'.memory_monitor_enabled)
    (h3 : m.watchdog_enabled = m'.watchdog_enabled)
    (h4 : m.gpio_abstraction_enabled = m'.gpio_abstraction_enabled)
    (h5 : m.uart_abstraction_enabled = m'.uart_abstraction_enabled)
    (h6 : m.dma_abstraction_enabled = m'.dma_abstraction_enabled) :
    cmake_module_source_lines m = cmake_module_source_lines m' := by
  simp only [cmake_module_source_lines, h1, h2, h3, h4, h5, h6]

/-- Lines of the fixed flags/includes/base-sources Makefile segment occur
in every generated Makefile. -/
theorem mem_makefile_of_flags_base {a : String}
    (h : a ∈ makefile_flags_base_lines) (p : PlatformType)
    (c : PlatformConfig) : a ∈ makefile_content p c := by
  simp only [makefile_content, List.mem_append]
  exact Or.inl (Or.inl (Or.inr h))

/-- Lines of the fixed Makefile tail occur in every generated Makefile. -/
theorem mem_makefile_of_tail {a : String}
    (h : a ∈ makefile_tail_lines) (p : PlatformType)
    (c : PlatformConfig) : a ∈ makefile_content p c := by
  simp only [makefile_content, List.mem_append]
  exact Or.inr h

/-- Lines of the fixed flags/includes/base-sources CMake segment occur in
every generated CMakeLists. -/
theorem mem_cmake_of_flags_base {a : String}
    (h : a ∈ cmake_flags_base_lines) (p : PlatformType)
    (c : PlatformConfig) : a ∈ cmake_content p c := by
  simp only [cmake_content, List.mem_append]
  exact Or.inl (Or.inl (Or.inr h))

/-- Splitting a generated Makefile after its platform/toolchain prelude:
everything from the flags segment on is the same function of the module
flags alone. -/
theorem makefile_content_drop_prelude (p : PlatformType) (c : PlatformConfig) :
    (makefile_content p c).drop (8 + (makefile_compiler_lines p).length) =
      makefile_flags_base_lines ++ makefile_module_source_lines c.module ++
        makefile_tail_lines := by
  have hsplit : makefile_content p c =
      (makefile_intro_lines p c ++ makefile_compiler_lines p) ++
        (makefile_flags_base_lines ++ makefile_module_source_lines c.module ++
          makefile_tail_lines) := by
    simp [makefile_content, List.append_assoc]
  have hlen : (makefile_intro_lines p c ++ makefile_compiler_lines p).length =
      8 + (makefile_compiler_lines p).length := by
    simp [makefile_intro_lines]
    omega
  rw [hsplit, ← hlen, List.drop_left]

/-- C1.  The spec's round-trip law `decode(encode(c)) = c` fails for every
valid `PlatformConfig`: `json.dump(asdict(c), …)` raises `TypeError`
because `asdict` leaves the `platform_type` enum member in the dictionary
and the default JSON encoder rejects enum members, so encoding produces no
bytes at all and the round trip never yields a configuration. -/
theorem c1_roundtrip_always_fails :
    ∀ c : PlatformConfig, save_then_load c = none := fun _ => rfl

/-- C2.  The JSON encode operation does not succeed for any registered
platform identifier: for each of the three presets `save_config_json`
fails with the `TypeError` path (the enum member is not serializable),
contradicting the claim that encoding succeeds and renders the identifier
as its string value. -/
theorem c2_encode_fails_for_every_preset :
    save_config_json init_default_platforms .STM32F4 = .error .pyError ∧
    save_config_json init_default_platforms .STM32F1 = .error .pyError ∧
    save_config_json init_default_platforms .STM32F7 = .error .pyError :=
  ⟨rfl, rfl, rfl⟩

/-- C3.  Decoding is strict: any non-object JSON input fails, an object
missing the `memory` key fails (and yields no partial configuration), and
whenever decoding succeeds every field of the result is exactly the value
found in the input — no default is ever applied for an absent field. -/
theorem c3_strict_decode :
    (∀ n, load_config_json (.pyInt n) = none) ∧
    (∀ s, load_config_json (.pyStr s) = none) ∧
    (∀ b, load_config_json (.pyBool b) = none) ∧
    (load_config_json .pyNull = none) ∧
    (∀ xs, load_config_json (.pyList xs) = none) ∧
    (∀ fs, fs.lookup "memory" = none → load_config_json (.pyDict fs) = none) ∧
    (∀ fs d, load_config_json (.pyDict fs) = some d →
      fs.lookup "platform_type" = some d.platform_type ∧
      fs.lookup "platform_name" = some d.platform_name ∧
      fs.lookup "clock" = some d.clock ∧
      fs.lookup "memory" = some d.memory ∧
      fs.lookup "peripheral" = some d.peripheral ∧
      fs.lookup "feature" = some d.feature ∧
      fs.lookup "module" = some d.module ∧
      fs.lookup "debug" = some d.debug) := by
  refine ⟨fun n => rfl, fun s => rfl, fun b => rfl, rfl, fun xs => rfl,
    ?_, ?_⟩
  · intro fs hmem
    simp only [load_config_json]
    rw [if_neg]
    simp [requiredFields, hmem]
  · intro fs d h
    simp only [load_config_json] at h
    split at h
    case isTrue hguard =>
      rw [Bool.and_eq_true] at hguard
      have hall := hguard.2
      simp only [requiredFields, List.all_cons, List.all_nil,
        Bool.and_eq_true, Bool.and_true] at hall
      obtain ⟨hf1, hf2, hf3, hf4, hf5, hf6, hf7, hf8⟩ := hall
      injection h with h
      subst h
      obtain ⟨v1, hv1⟩ := Option.isSome_iff_exists.mp hf1
      obtain ⟨v2, hv2⟩ := Option.isSome_iff_exists.mp hf2
      obtain ⟨v3, hv3⟩ := Option.isSome_iff_exists.mp hf3
      obtain ⟨v4, hv4⟩ := Option.isSome_iff_exists.mp hf4
      obtain ⟨v5, hv5⟩ := Option.isSome_iff_exists.mp hf5
      obtain ⟨v6, hv6⟩ := Option.isSome_iff_exists.mp hf6
      obtain ⟨v7, hv7⟩ := Option.isSome_iff_exists.mp hf7
      obtain ⟨v8, hv8⟩ := Option.isSome_iff_exists.mp hf8
      exact ⟨by simp [hv1], by simp [hv2], by simp [hv3], by simp [hv4],
        by simp [hv5], by simp [hv6], by simp [hv7], by simp [hv8]⟩
    case isFalse => exact absurd h (by simp)

/-- Witness for C3: decoding an object that lacks the `memory` section
(and everything else but the identifier) yields no configuration. -/
theorem c3_witness :
    load_config_json (.pyDict [("platform_type", .pyStr "stm32f4")]) = none :=
  c3_strict_decode.2.2.2.2.2.1 [("platform_type", .pyStr "stm32f4")] rfl

/-- Counterexample for C4.  The external-override path does not preserve
the identifier invariant: decoding a well-formed stm32f4 JSON document
yields an object whose `platform_type` is the string `"stm32f4"`, and
installing it under the `STM32F4` key stores an entry whose identifier is
not equal (by Python `==`) to the key it is stored under. -/
theorem c4_counterexample :
    load_config_json sampleStm32f4Json = some sampleDecodedF4 ∧
    lookupPlatform
      (setPlatform init_default_platforms .STM32F4 (.decoded sampleDecodedF4))
      .STM32F4 = some (.decoded sampleDecodedF4) ∧
    identMatches (entryIdent (.decoded sampleDecodedF4)) .STM32F4 = false :=
  ⟨rfl, rfl, rfl⟩

/-- C4 (amended).  In the initial registry state every stored entry's
identifier equals the key it is stored under; the override path performs
no such check and can break the invariant (see the counterexample). -/
theorem c4_amended (p : PlatformType) (e : Entry)
    (h : lookupPlatform init_default_platforms p = some e) :
    identMatches (entryIdent e) p = true := by
  cases p with
  | STM32F1 =>
    rw [show lookupPlatform init_default_platforms .STM32F1 =
      some (.preset stm32f1Config) from rfl] at h
    cases h; rfl
  | STM32F4 =>
    rw [show lookupPlatform init_default_platforms .STM32F4 =
      some (.preset stm32f4Config) from rfl] at h
    cases h; rfl
  | STM32F7 =>
    rw [show lookupPlatform init_default_platforms .STM32F7 =
      some (.preset stm32f7Config) from rfl] at h
    cases h; rfl
  | RISC_V =>
    rw [show lookupPlatform init_default_platforms .RISC_V = none from rfl] at h
    exact absurd h (by simp)
  | X86_64 =>
    rw [show lookupPlatform init_default_platforms .X86_64 = none from rfl] at h
    exact absurd h (by simp)

/-- Witness for the amended C4, at the STM32F4 preset. -/
theorem c4_witness :
    identMatches (entryIdent (.preset stm32f4Config)) .STM32F4 = true :=
  c4_amended .STM32F4 (.preset stm32f4Config) rfl

/-- C5.  Initialization registers presets for exactly the three STM32
identifiers (in insertion order STM32F4, STM32F1, STM32F7); `RISC_V` and
`X86_64` are declared enumeration values without a preset, and for them
the lookup fails and all four generators fail with `NotFound`, producing
no artifact. -/
theorem c5_registry_presets_and_notfound :
    init_default_platforms.map Prod.fst = [.STM32F4, .STM32F1, .STM32F7] ∧
    lookupPlatform init_default_platforms .RISC_V = none ∧
    lookupPlatform init_default_platforms .X86_64 = none ∧
    generate_config_header init_default_platforms .RISC_V = .error .notFound ∧
    generate_makefile init_default_platforms .RISC_V = .error .notFound ∧
    generate_cmake_file init_default_platforms .RISC_V = .error .notFound ∧
    save_config_json init_default_platforms .RISC_V = .error .notFound ∧
    generate_config_header init_default_platforms .X86_64 = .error .notFound ∧
    generate_makefile init_default_platforms .X86_64 = .error .notFound ∧
    generate_cmake_file init_default_platforms .X86_64 = .error .notFound ∧
    save_config_json init_default_platforms .X86_64 = .error .notFound :=
  ⟨rfl, rfl, rfl, rfl, rfl, rfl, rfl, rfl, rfl, rfl, rfl⟩

/-- Counterexample for C6.  The CMake conditional source list is not
driven by exactly five flags: six distinct ModuleConfig flags each change
the emitted block (power management, memory monitor, watchdog, GPIO,
UART, DMA), so at least six flags drive it. -/
theorem c6_counterexample :
    ((cmake_module_source_lines allModulesOn ==
      cmake_module_source_lines allButPower) = false) ∧
    ((cmake_module_source_lines allModulesOn ==
      cmake_module_source_lines allButMemoryMonitor) = false) ∧
    ((cmake_module_source_lines allModulesOn ==
      cmake_module_source_lines allButWatchdog) = false) ∧
    ((cmake_module_source_lines allModulesOn ==
      cmake_module_source_lines allButGpio) = false) ∧
    ((cmake_module_source_lines allModulesOn ==
      cmake_module_source_lines allButUart) = false) ∧
    ((cmake_module_source_lines allModulesOn ==
      cmake_module_source_lines allButDma) = false) :=
  ⟨rfl, rfl, rfl, rfl, rfl, rfl⟩

/-- C6 (amended).  The CMake conditional source list is driven by exactly
six ModuleConfig flags — power management, memory monitor, watchdog, GPIO
abstraction, UART abstraction and DMA abstraction — a strict subset of the
Makefile's eight-flag subset (it omits the SPI and I2C rules), hence with
distinct membership: the block depends on no other flag, each of the six
changes it, and SPI/I2C change the Makefile block but not the CMake one. -/
theorem c6_amended_six_flags :
    (∀ m m' : ModuleConfig,
      m.power_management_enabled = m'.power_management_enabled →
      m.memory_monitor_enabled = m'.memory_monitor_enabled →
      m.watchdog_enabled = m'.watchdog_enabled →
      m.gpio_abstraction_enabled = m'.gpio_abstraction_enabled →
      m.uart_abstraction_enabled = m'.uart_abstraction_enabled →
      m.dma_abstraction_enabled = m'.dma_abstraction_enabled →
      cmake_module_source_lines m = cmake_module_source_lines m') ∧
    ((cmake_module_source_lines allModulesOn ==
      cmake_module_source_lines allButPower) = false) ∧
    ((cmake_module_source_lines allModulesOn ==
      cmake_module_source_lines allButMemoryMonitor) = false) ∧
    ((cmake_module_source_lines allModulesOn ==
      cmake_module_source_lines allButWatchdog) = false) ∧
    ((cmake_module_source_lines allModulesOn ==
      cmake_module_source_lines allButGpio) = false) ∧
    ((cmake_module_source_lines allModulesOn ==
      cmake_module_source_lines allButUart) = false) ∧
    ((cmake_module_source_lines allModulesOn ==
      cmake_module_source_lines allButDma) = false) ∧
    ((cmake_module_source_lines allModulesOn ==
      cmake_module_source_lines allButSpi) = true) ∧
    ((cmake_module_source_lines allModulesOn ==
      cmake_module_source_lines allButI2c) = true) ∧
    ((makefile_module_source_lines allModulesOn ==
      makefile_module_source_lines allButSpi) = false) ∧
    ((makefile_module_source_lines allModulesOn ==
      makefile_module_source_lines allButI2c) = false) :=
  ⟨cmake_module_source_lines_congr,
   rfl, rfl, rfl, rfl, rfl, rfl, rfl, rfl, rfl, rfl⟩

/-- Witness for the amended C6: two configurations differing only in the
SPI and I2C flags (which the CMake renderer does not test) get identical
CMake conditional blocks. -/
theorem c6_witness :
    cmake_module_source_lines allButSpi = cmake_module_source_lines allButI2c :=
  c6_amended_six_flags.1 allButSpi allButI2c rfl rfl rfl rfl rfl rfl

/-- C7.  The Makefile conditional source block is one append-line-if-true
rule for each of exactly eight ModuleConfig flags, in a fixed order: the
block depends only on those eight flags, is always an order-preserving
sublist of the fixed eight-line list, equals the full list when all flags
are on, and each of the eight flags changes it. -/
theorem c7_makefile_eight_flags :
    (∀ m m' : ModuleConfig,
      m.power_management_enabled = m'.power_management_enabled →
      m.memory_monitor_enabled = m'.memory_monitor_enabled →
      m.watchdog_enabled = m'.watchdog_enabled →
      m.gpio_abstraction_enabled = m'.gpio_abstraction_enabled →
      m.uart_abstraction_enabled = m'.uart_abstraction_enabled →
      m.spi_abstraction_enabled = m'.spi_abstraction_enabled →
      m.i2c_abstraction_enabled = m'.i2c_abstraction_enabled →
      m.dma_abstraction_enabled = m'.dma_abstraction_enabled →
      makefile_module_source_lines m = makefile_module_source_lines m') ∧
    (∀ m : ModuleConfig,
      List.Sublist (makefile_module_source_lines m) makefileEightSourceLines) ∧
    makefile_module_source_lines allModulesOn = makefileEightSourceLines ∧
    ((makefile_module_source_lines allModulesOn ==
      makefile_module_source_lines allButPower) = false) ∧
    ((makefile_module_source_lines allModulesOn ==
      makefile_module_source_lines allButMemoryMonitor) = false) ∧
    ((makefile_module_source_lines allModulesOn ==
      makefile_module_source_lines allButWatchdog) = false) ∧
    ((makefile_module_source_lines allModulesOn ==
      makefile_module_source_lines allButGpio) = false) ∧
    ((makefile_module_source_lines allModulesOn ==
      makefile_module_source_lines allButUart) = false) ∧
    ((makefile_module_source_lines allModulesOn ==
      makefile_module_source_lines allButSpi) = false) ∧
    ((makefile_module_source_lines allModulesOn ==
      makefile_module_source_lines allButI2c) = false) ∧
    ((makefile_module_source_lines allModulesOn ==
      makefile_module_source_lines allButDma) = false) := by
  refine ⟨makefile_module_source_lines_congr, ?_, rfl,
    rfl, rfl, rfl, rfl, rfl, rfl, rfl, rfl⟩
  intro m
  exact (((((((if_singleton_sublist _ _).append
    (if_singleton_sublist _ _)).append
    (if_singleton_sublist _ _)).append
    (if_singleton_sublist _ _)).append
    (if_singleton_sublist _ _)).append
    (if_singleton_sublist _ _)).append
    (if_singleton_sublist _ _)).append
    (if_singleton_sublist _ _)

/-- Witness for C7: two configurations agreeing on the eight tested flags
but differing in the OTA flag get identical conditional blocks. -/
theorem c7_witness :
    makefile_module_source_lines allModulesOn =
      makefile_module_source_lines allButOta :=
  c7_makefile_eight_flags.1 allModulesOn allButOta
    rfl rfl rfl rfl rfl rfl rfl rfl

/-- C8.  The Makefile toolchain block selects the ARM prefix for each of
the three built-in presets, never emits the RISC-V prefix for them (or for
X86_64), emits the RISC-V prefix exactly for the `RISC_V` identifier,
which has no preset (its lookup fails, `generate_makefile` fails with
`NotFound` on the initial registry), and ceases to be `NotFound` exactly
when an entry — only obtainable from an externally supplied configuration
— is installed for it. -/
theorem c8_toolchain_selection :
    ("CC = arm-none-eabi-gcc" ∈ makefile_compiler_lines .STM32F1) ∧
    ("CC = arm-none-eabi-gcc" ∈ makefile_compiler_lines .STM32F4) ∧
    ("CC = arm-none-eabi-gcc" ∈ makefile_compiler_lines .STM32F7) ∧
    ((makefile_compiler_lines .STM32F1).contains
      "CC = riscv64-unknown-elf-gcc" = false) ∧
    ((makefile_compiler_lines .STM32F4).contains
      "CC = riscv64-unknown-elf-gcc" = false) ∧
    ((makefile_compiler_lines .STM32F7).contains
      "CC = riscv64-unknown-elf-gcc" = false) ∧
    ((makefile_compiler_lines .X86_64).contains
      "CC = riscv64-unknown-elf-gcc" = false) ∧
    ("CC = riscv64-unknown-elf-gcc" ∈ makefile_compiler_lines .RISC_V) ∧
    ((makefile_compiler_lines .RISC_V).contains
      "CC = arm-none-eabi-gcc" = false) ∧
    ((makefile_compiler_lines .X86_64).contains
      "CC = arm-none-eabi-gcc" = false) ∧
    lookupPlatform init_default_platforms .RISC_V = none ∧
    isNotFound (generate_makefile init_default_platforms .RISC_V) = true ∧
    (∀ e : Entry, isNotFound (generate_makefile
      (setPlatform init_default_platforms .RISC_V e) .RISC_V) = false) := by
  refine ⟨by decide, by decide, by decide, rfl, rfl, rfl, rfl, by decide,
    rfl, rfl, rfl, rfl, ?_⟩
  intro e
  cases e <;> rfl

/-- C9.  The header rendered for the 168 MHz preset contains the literal
system-clock constant line with value 168000000, and its platform-family
trailing block contains the STM32F4 identity macro line; the header
generator produces exactly this artifact for the STM32F4 preset. -/
theorem c9_stm32f4_header :
    ("#define RTOS_HW_SYSTEM_CLOCK_FREQ          168000000" ∈
      header_content .STM32F4 stm32f4Config) ∧
    ("#define STM32F40_41xxx                     1" ∈
      platform_macro_lines .STM32F4) ∧
    ("#define STM32F40_41xxx                     1" ∈
      header_content .STM32F4 stm32f4Config) ∧
    generate_config_header init_default_platforms .STM32F4 =
      .ok (header_content .STM32F4 stm32f4Config) :=
  ⟨by decide, by decide, by decide, rfl⟩

/-- C10.  Everything in a generated Makefile past its platform/toolchain
prelude (at most 8 + 6 lines) is independent of the rendered platform,
given equal values of the eight tested module flags; in particular every
generated Makefile contains the STM32F4-specific compile-flag defines,
include paths, firmware-library source list and link script literally,
every generated CMakeLists contains the same define flags, and the three
presets agree on the conditional block, so between built-in platforms only
the prelude (platform name/identifier variables and toolchain block)
differs. -/
theorem c10_fixed_blocks :
    (∀ (p : PlatformType) (c : PlatformConfig) (p' : PlatformType)
       (c' : PlatformConfig),
      c.module.power_management_enabled = c'.module.power_management_enabled →
      c.module.memory_monitor_enabled = c'.module.memory_monitor_enabled →
      c.module.watchdog_enabled = c'.module.watchdog_enabled →
      c.module.gpio_abstraction_enabled = c'.module.gpio_abstraction_enabled →
      c.module.uart_abstraction_enabled = c'.module.uart_abstraction_enabled →
      c.module.spi_abstraction_enabled = c'.module.spi_abstraction_enabled →
      c.module.i2c_abstraction_enabled = c'.module.i2c_abstraction_enabled →
      c.module.dma_abstraction_enabled = c'.module.dma_abstraction_enabled →
      (makefile_content p c).drop (8 + (makefile_compiler_lines p).length) =
        (makefile_content p' c').drop
          (8 + (makefile_compiler_lines p').length)) ∧
    (∀ p, (makefile_compiler_lines p).length ≤ 6) ∧
    (∀ p c, "CFLAGS += -DSTM32F40_41xxx -DUSE_STDPERIPH_DRIVER -DHSE_VALUE=25000000"
      ∈ makefile_content p c) ∧
    (∀ p c, "INCLUDES = -I. -Irtos -Irtos/core -Irtos/hw -Irtos/hw/security -Irtos/hw/network -Irtos/hw/ota -Irtos/hw/debug"
      ∈ makefile_content p c) ∧
    (∀ p c, "INCLUDES += -Ifwlib/inc -Ifwlib/CMSIS/STM32F4xx/Include -Ifwlib/CMSIS/Include"
      ∈ makefile_content p c) ∧
    (∀ p c, "FWLIB_SOURCES = fwlib/src/stm32f4xx_rcc.c fwlib/src/stm32f4xx_tim.c"
      ∈ makefile_content p c) ∧
    (∀ p c, "FWLIB_SOURCES += fwlib/src/misc.c" ∈ makefile_content p c) ∧
    (∀ p c, "LDSCRIPT = STM32F407VGTx_FLASH.ld" ∈ makefile_content p c) ∧
    (∀ p c, "set(CMAKE_C_FLAGS \"${CMAKE_C_FLAGS} -DSTM32F40_41xxx -DUSE_STDPERIPH_DRIVER -DHSE_VALUE=25000000\")"
      ∈ cmake_content p c) ∧
    makefile_module_source_lines stm32f4Config.module =
      makefile_module_source_lines stm32f1Config.module ∧
    makefile_module_source_lines stm32f4Config.module =
      makefile_module_source_lines stm32f7Config.module := by
  refine ⟨?_, ?_, fun p c => mem_makefile_of_flags_base (by decide) p c,
    fun p c => mem_makefile_of_flags_base (by decide) p c,
    fun p c => mem_makefile_of_flags_base (by decide) p c,
    fun p c => mem_makefile_of_tail (by decide) p c,
    fun p c => mem_makefile_of_tail (by decide) p c,
    fun p c => mem_makefile_of_tail (by decide) p c,
    fun p c => mem_cmake_of_flags_base (by decide) p c,
    rfl, rfl⟩
  · intro p c p' c' h1 h2 h3 h4 h5 h6 h7 h8
    rw [makefile_content_drop_prelude, makefile_content_drop_prelude,
      makefile_module_source_lines_congr c.module c'.module
        h1 h2 h3 h4 h5 h6 h7 h8]
  · intro p
    cases p <;> simp [makefile_compiler_lines]

/-- Witness for C10: for the STM32F4 and STM32F1 presets (which agree on
the eight tested module flags) everything past the prelude coincides. -/
theorem c10_witness :
    (makefile_content .STM32F4 stm32f4Config).drop
      (8 + (makefile_compiler_lines .STM32F4).length) =
    (makefile_content .STM32F1 stm32f1Config).drop
      (8 + (makefile_compiler_lines .STM32F1).length) :=
  c10_fixed_blocks.1 .STM32F4 stm32f4Config .STM32F1 stm32f1Config
    rfl rfl rfl rfl rfl rfl rfl rfl

end RTOSConfigGen
